import Mathlib

/-!
# Verification of the foggy-bot pipeline (`foggybot.py`)

A shallow embedding of the weather-report pipeline in `src/foggybot.py`:

* Python strings are `List Char`; Python `None`-able results are `Option`;
  any Python exception caught by an enclosing `try/except` is modelled as a
  `none` result of the enclosing function.
* `re.search(r"#(?:[0-9a-fA-F]{3}){1,2}\b", text)` is modelled by `search`
  (leftmost position, greedy: six hex digits preferred over three, then a
  word boundary).  The regex word-character class is modelled over ASCII
  (`isAlphanum` or underscore), which covers every input considered here.
* `str.replace(old, "")` is modelled by `replaceAll` (single left-to-right
  pass removing non-overlapping occurrences, as CPython does).
* `str.rstrip()` is modelled by `rstrip` over the ASCII whitespace set.
* JSON response bodies are the inductive `Json`; the HTTP layer is a
  parameter `http : Request → Option Json` where `none` covers a network
  error, a non-2xx status (`raise_for_status`) and an unparsable body.
* Clock reads (`datetime.now(...)`) are explicit `Tm` parameters, passed in
  the order the source performs them.
-/

namespace Foggybot

/-! ## Characters and basic string operations -/

/-- Hexadecimal digit, the class `[0-9a-fA-F]` of the color regex. -/
def isHexDigit (c : Char) : Bool :=
  c.isDigit || ('a' ≤ c && c ≤ 'f') || ('A' ≤ c && c ≤ 'F')

/-- Regex word character (the class behind the final word boundary in the
color pattern), modelled over ASCII: letters, digits and underscore. -/
def isWordChar (c : Char) : Bool :=
  c.isAlphanum || c = '_'

/-- Whitespace stripped by Python's `str.rstrip()` (ASCII subset). -/
def isPySpace (c : Char) : Bool :=
  c = ' ' || c = '\t' || c = '\n' || c = '\r' || c = Char.ofNat 11 || c = Char.ofNat 12

/-- `startsWith p s` is true when `p` is a prefix of `s`. -/
def startsWith : List Char → List Char → Bool
  | [], _ => true
  | _ :: _, [] => false
  | p :: ps, c :: cs => p = c && startsWith ps cs

/-- Python `str.rstrip()`: drop trailing whitespace. -/
def rstrip (l : List Char) : List Char :=
  (l.reverse.dropWhile isPySpace).reverse

/-- Does `pat` occur as a contiguous substring of `s`?  (Bounded scan, so the
predicate is directly evaluable.) -/
def occursB (pat s : List Char) : Bool :=
  (List.range (s.length + 1)).any fun p => startsWith pat (s.drop p)

/-- One step of Python `str.replace(pat, "")`, with explicit fuel so that the
definition is structural (and hence evaluable by `decide`).  Python scans
left to right, removing non-overlapping occurrences in a single pass. -/
def replaceAllAux : Nat → List Char → List Char → List Char
  | 0, s, _ => s
  | fuel + 1, s, pat =>
    if startsWith pat s = true ∧ pat ≠ [] then
      replaceAllAux fuel (s.drop pat.length) pat
    else
      match s with
      | [] => []
      | c :: rest => c :: replaceAllAux fuel rest pat

/-- Python `s.replace(pat, "")`.  With `pat = []` this is the identity, as
`str.replace("", "")` is in Python. -/
def replaceAll (s pat : List Char) : List Char :=
  replaceAllAux (s.length + 1) s pat

/-! ## The color-code regex `#(?:[0-9a-fA-F]{3}){1,2}\b` -/

/-- The word-boundary test after the digits: the character before it is a hex
digit (a word character), so the boundary holds exactly when the following
character is absent or not a word character. -/
def boundaryAfter : List Char → Bool
  | [] => true
  | c :: _ => !(isWordChar c)

/-- Attempt to match `#(?:[0-9a-fA-F]{3}){1,2}\b` at the head of `s`.  The
greedy `{1,2}` tries two groups (six digits) first, then one (three). -/
def matchAt (s : List Char) : Option (List Char) :=
  match s with
  | [] => none
  | c :: rest =>
    if c = '#' then
      if (rest.take 6).length = 6 ∧ (rest.take 6).all isHexDigit = true
          ∧ boundaryAfter (rest.drop 6) = true then
        some (c :: rest.take 6)
      else if (rest.take 3).length = 3 ∧ (rest.take 3).all isHexDigit = true
          ∧ boundaryAfter (rest.drop 3) = true then
        some (c :: rest.take 3)
      else none
    else none

/-- `re.search`: try each start position from the left, return the first
(leftmost) match. -/
def search : List Char → Option (List Char)
  | [] => none
  | c :: rest =>
    match matchAt (c :: rest) with
    | some m => some m
    | none => search rest

/-- `WeatherReporter._extract_color_code` (src/foggybot.py:304-307). -/
def extract_color_code (text : List Char) : Option (List Char) :=
  search text

/-- Number of start positions at which the color pattern matches, i.e. how
many substrings of `s` the regex engine can report. -/
def patternMatchCount (s : List Char) : Nat :=
  ((List.range (s.length + 1)).filter fun p => (matchAt (s.drop p)).isSome).length

/-! ## Local timestamps -/

/-- A local wall-clock reading, already converted to the configured timezone
(`pytz.timezone("America/Chicago")`); the pipeline never inspects the zone
beyond formatting these six fields. -/
structure Tm where
  year : Nat
  month : Nat
  day : Nat
  hour : Nat
  minute : Nat
  second : Nat
deriving DecidableEq

/-- The decimal digit character for `n % 10`. -/
def digitChar (n : Nat) : Char :=
  Char.ofNat (48 + n % 10)

/-- Decimal digits of `n` (fuelled, structural). -/
def natCharsAux : Nat → Nat → List Char
  | 0, _ => []
  | fuel + 1, n =>
    if n < 10 then [digitChar n] else natCharsAux fuel (n / 10) ++ [digitChar (n % 10)]

/-- Decimal representation of a natural number. -/
def natChars (n : Nat) : List Char :=
  natCharsAux (n + 1) n

/-- Zero-pad on the left to width `w` (strftime's `%m`, `%d`, ... padding). -/
def padZ (w : Nat) (l : List Char) : List Char :=
  List.replicate (w - l.length) '0' ++ l

/-- `strftime("%Y-%m-%d %H:%M:%S")` on a local reading: only the six numeric
fields appear; the format string contains no `%Z`/`%z` directive. -/
def formatTs (t : Tm) : List Char :=
  padZ 4 (natChars t.year) ++ ('-' :: padZ 2 (natChars t.month))
    ++ ('-' :: padZ 2 (natChars t.day)) ++ (' ' :: padZ 2 (natChars t.hour))
    ++ (':' :: padZ 2 (natChars t.minute)) ++ (':' :: padZ 2 (natChars t.second))

/-! ## JSON values and response navigation

Python exceptions raised while navigating a parsed response (`KeyError`,
`IndexError`, `TypeError`) are all caught by the enclosing `try/except`
blocks in the source and turned into a `None` result, so every such failure
is modelled as `none` here; branches where Python would raise and branches
where it would fall through to `return None` are extensionally identified. -/

inductive Json where
  | null : Json
  | bool : Bool → Json
  | num : ℚ → Json
  | str : String → Json
  | arr : List Json → Json
  | obj : List (String × Json) → Json

/-- First-wins lookup in the key/value list of a JSON object. -/
def lookupKv : List (String × Json) → String → Option Json
  | [], _ => none
  | (k', v) :: rest, k => if k' = k then some v else lookupKv rest k

/-- `d[k]`: `none` models both `KeyError` and the `TypeError` raised when
subscripting a non-dict with a string key. -/
def getField : Json → String → Option Json
  | Json.obj kvs, k => lookupKv kvs k
  | _, _ => none

/-- Python `k in d` for a string key (false on non-dicts: in the source the
non-dict cases all end in the same `None` result either way). -/
def hasKey (j : Json) (k : String) : Bool :=
  (getField j k).isSome

/-- A value usable as a `requests.get` URL must be a string; anything else
makes `requests.get` raise. -/
def asStr : Json → Option String
  | Json.str s => some s
  | _ => none

/-- `xs[0]`: `none` models `IndexError` on an empty list and `TypeError` on
non-list values (in the source every such case ends in `None` overall). -/
def index0 : Json → Option Json
  | Json.arr (x :: _) => some x
  | _ => none

/-- `x[:2]`: defined for lists and strings, a `TypeError` otherwise. -/
def slice2 : Json → Option Json
  | Json.arr xs => some (Json.arr (xs.take 2))
  | Json.str s => some (Json.str (s.take 2))
  | _ => none

/-- Python truthiness of a parsed-JSON value (`if not x`). -/
def truthyJson : Json → Bool
  | Json.null => false
  | Json.bool b => b
  | Json.num q => q ≠ 0
  | Json.str s => s ≠ ""
  | Json.arr xs => !xs.isEmpty
  | Json.obj kvs => !kvs.isEmpty

/-- `str(x)` as used in the station-URL f-string.  Only the `str` case is
ever relied on by a theorem; the other cases stand in for Python's `repr`
text, whose exact spelling is irrelevant to the properties proved (the HTTP
behaviour is universally quantified). -/
def pyStr : Json → String
  | Json.null => "None"
  | Json.bool b => if b then "True" else "False"
  | Json.num q => toString q
  | Json.str s => s
  | Json.arr _ => "[list]"
  | Json.obj _ => "[dict]"

/-- A numeric value as fed to the unit converters: JSON `null` propagates as
Python `None`, numbers are numbers, booleans are ints in Python arithmetic;
strings/lists/dicts make the arithmetic raise `TypeError` (→ `none`). -/
def jsonToOptFloat : Json → Option (Option ℚ)
  | Json.null => some none
  | Json.num q => some (some q)
  | Json.bool b => some (some (if b then 1 else 0))
  | _ => none

/-! ## WeatherGov (src/foggybot.py:106-192) -/

/-- One HTTP GET issued by the script: the initial `points` lookup keyed by
the coordinate pair, or a follow-up GET on a URL taken from a response. -/
inductive Request where
  | points : ℚ → ℚ → Request
  | geturl : String → Request

/-- `WeatherGov._celsius_to_fahrenheit` (src/foggybot.py:158-160). -/
def celsius_to_fahrenheit : Option ℚ → Option ℚ
  | none => none
  | some c => some (c * 9 / 5 + 32)

/-- `WeatherGov._ms_to_mph` (src/foggybot.py:162-164). -/
def ms_to_mph : Option ℚ → Option ℚ
  | none => none
  | some v => some (v * 2.237)

structure Location where
  name : Json
  state : Json
  latitude : ℚ
  longitude : ℚ

structure CurrentConditions where
  timestamp : Json
  temperature_f : Option ℚ
  temperature_c : Json
  humidity : Json
  wind_speed_mph : Option ℚ
  wind_direction : Json
  description : Json

structure Snapshot where
  location : Location
  current_conditions : CurrentConditions
  forecast : Json

/-- `WeatherGov._format_location` (src/foggybot.py:166-176). -/
def format_location (point_data : Json) (lat lon : ℚ) : Option Location :=
  match (getField point_data "properties").bind
      (fun p => (getField p "relativeLocation").bind (fun r => getField r "properties")) with
  | none => none
  | some rlp =>
    match getField rlp "city", getField rlp "state" with
    | some n, some s => some { name := n, state := s, latitude := lat, longitude := lon }
    | _, _ => none

/-- `WeatherGov._format_current_conditions` (src/foggybot.py:178-192). -/
def format_current_conditions (observation_data : Json) : Option CurrentConditions :=
  match getField observation_data "properties" with
  | none => none
  | some props =>
    match getField props "timestamp",
        (getField props "temperature").bind (fun t => getField t "value"),
        (getField props "relativeHumidity").bind (fun h => getField h "value"),
        (getField props "windSpeed").bind (fun w => getField w "value"),
        (getField props "windDirection").bind (fun w => getField w "value"),
        getField props "textDescription" with
    | some ts, some tempJ, some hum, some windJ, some wdir, some desc =>
      match jsonToOptFloat tempJ, jsonToOptFloat windJ with
      | some tempC, some windV =>
        some { timestamp := ts
               temperature_f := celsius_to_fahrenheit tempC
               temperature_c := tempJ
               humidity := hum
               wind_speed_mph := ms_to_mph windV
               wind_direction := wdir
               description := desc }
      | _, _ => none
    | _, _, _, _, _, _ => none

/-- `WeatherGov.get_weather_data` (src/foggybot.py:113-128) together with the
three fetch helpers it calls (`_get_point_data`, `_get_forecast_data`,
`_get_observation_data`, lines 130-156).  The `try/except` around the body
turns every failure of any step into `none`. -/
def get_weather_data (http : Request → Option Json) (lat lon : ℚ) : Option Snapshot :=
  match http (Request.points lat lon) with
  | none => none
  | some point_data =>
    match (getField point_data "properties").bind (fun p => getField p "forecast") with
    | none => none
    | some fUrlJ =>
      match asStr fUrlJ with
      | none => none
      | some fUrl =>
        match http (Request.geturl fUrl) with
        | none => none
        | some forecast_data =>
          match (getField point_data "properties").bind
              (fun p => getField p "observationStations") with
          | none => none
          | some sUrlJ =>
            match asStr sUrlJ with
            | none => none
            | some sUrl =>
              match http (Request.geturl sUrl) with
              | none => none
              | some stations_data =>
                match ((getField stations_data "features").bind index0).bind
                    (fun f => getField f "id") with
                | none => none
                | some sid =>
                  match http (Request.geturl (pyStr sid ++ "/observations/latest")) with
                  | none => none
                  | some observation_data =>
                    match format_location point_data lat lon with
                    | none => none
                    | some loc =>
                      match format_current_conditions observation_data with
                      | none => none
                      | some cc =>
                        match (getField forecast_data "properties").bind
                            (fun p => getField p "periods") with
                        | none => none
                        | some periodsJ =>
                          match slice2 periodsJ with
                          | none => none
                          | some fc =>
                            some { location := loc, current_conditions := cc, forecast := fc }

/-! ## YouTubeClient (src/foggybot.py:32-60) -/

/-- The thumbnail-quality loop body: `for quality in [...]: if quality in
thumbnails: return thumbnails[quality]["url"]`.  At the first present key the
loop returns (a missing `"url"` there raises, hence `none`); if no key is
present the loop falls through and the function returns `None`. -/
def pickThumbnail : Json → List String → Option Json
  | _, [] => none
  | thumbs, q :: qs =>
    if hasKey thumbs q then (getField thumbs q).bind (fun e => getField e "url")
    else pickThumbnail thumbs qs

/-- The URL stored under quality `q` of the thumbnails map. -/
def thumbUrl (thumbs : Json) (q : String) : Option Json :=
  (getField thumbs q).bind (fun e => getField e "url")

/-- `YouTubeClient.get_live_thumbnail` (src/foggybot.py:36-60) applied to the
videos-list API response.  `none` covers: missing/empty `items`, a video
without `liveStreamingDetails`, missing `snippet`/`thumbnails`, no known
quality key, and every exception path (all caught by the method's
`try/except`). -/
def get_live_thumbnail (response : Json) : Option Json :=
  match getField response "items" with
  | some (Json.arr (video :: _)) =>
    if hasKey video "liveStreamingDetails" then
      match (getField video "snippet").bind (fun s => getField s "thumbnails") with
      | some thumbs => pickThumbnail thumbs ["maxres", "high", "default"]
      | none => none
    else none
  | _ => none

/-! ## WeatherReporter (src/foggybot.py:215-337) -/

structure Report where
  forecast_data : Snapshot
  weather_report : List Char
  color_code : Option (List Char)
  timestamp : List Char

/-- `WeatherReporter.generate_report` (src/foggybot.py:286-302).  The model
response text is the observed output of the LLM call; `tPrompt` is the clock
reading taken inside `_prepare_forecast_prompt` (before the model call) and
`tReport` the one taken while assembling the result dict (after the model
call returns) — the source reads `datetime.now` twice, in that order. -/
def generate_report (weather_data : Snapshot) (response_text : List Char)
    (_tPrompt tReport : Tm) : Report :=
  let color_code := extract_color_code response_text
  { forecast_data := weather_data
    weather_report := rstrip (replaceAll response_text (color_code.getD []))
    color_code := color_code
    timestamp := formatTs tReport }

/-! ## main (src/foggybot.py:340-364) -/

inductive Event where
  | youtubeLookup : Event
  | downloadThumb : Event
  | weatherCall : Event
  | modelCall : Event
  | writeFile : Event
deriving DecidableEq

/-- `EVANSTON_COORDINATES` (src/foggybot.py:23). -/
def evanstonLat : ℚ := 42.032931
def evanstonLon : ℚ := -87.680432

/-- The ambient behaviour of the external world for one run: the environment
variable, the YouTube API response, the outcome of the thumbnail download,
the weather HTTP layer, the LLM response text and the two clock readings. -/
structure Env where
  api_key : Option String
  yt_response : Json
  download_result : Option String
  weather_http : Request → Option Json
  model_response : List Char
  t_prompt : Tm
  t_report : Tm

/-- `main` (src/foggybot.py:340-364), returning the raised error (if any) or
the report that gets written, paired with the trace of external stages
actually reached, in order. -/
def main (env : Env) : Except String Report × List Event :=
  match env.api_key with
  | none => (Except.error "Please set YOUTUBE_API_KEY environment variable", [])
  | some k =>
    if k = "" then (Except.error "Please set YOUTUBE_API_KEY environment variable", [])
    else
      match get_live_thumbnail env.yt_response with
      | none => (Except.error "Failed to get YouTube livestream thumbnail", [Event.youtubeLookup])
      | some u =>
        if truthyJson u = false then
          (Except.error "Failed to get YouTube livestream thumbnail", [Event.youtubeLookup])
        else
          match env.download_result with
          | none => (Except.error "Failed to download thumbnail",
              [Event.youtubeLookup, Event.downloadThumb])
          | some path =>
            if path = "" then
              (Except.error "Failed to download thumbnail",
                [Event.youtubeLookup, Event.downloadThumb])
            else
              match get_weather_data env.weather_http evanstonLat evanstonLon with
              | none => (Except.error "Failed to get weather data",
                  [Event.youtubeLookup, Event.downloadThumb, Event.weatherCall])
              | some wd =>
                (Except.ok (generate_report wd env.model_response env.t_prompt env.t_report),
                  [Event.youtubeLookup, Event.downloadThumb, Event.weatherCall,
                    Event.modelCall, Event.writeFile])

/-! ## Helper lemmas on the string model -/

theorem startsWith_iff (p s : List Char) : startsWith p s = true ↔ ∃ t, s = p ++ t := by
  induction p generalizing s with
  | nil => simp [startsWith]
  | cons a ps ih =>
    cases s with
    | nil => simp [startsWith]
    | cons c cs =>
      simp only [startsWith, Bool.and_eq_true, decide_eq_true_eq, List.cons_append]
      constructor
      · rintro ⟨rfl, h⟩
        obtain ⟨t, rfl⟩ := (ih cs).1 h
        exact ⟨t, rfl⟩
      · rintro ⟨t, ht⟩
        injection ht with h1 h2
        exact ⟨h1.symm, (ih cs).2 ⟨t, h2⟩⟩

theorem startsWith_append_self (p t : List Char) : startsWith p (p ++ t) = true :=
  (startsWith_iff p (p ++ t)).2 ⟨t, rfl⟩

theorem drop_append_len (l t : List Char) (n : Nat) :
    (l ++ t).drop (l.length + n) = t.drop n := by
  induction l with
  | nil => simp
  | cons a l ih => simp [Nat.succ_add, ih]

theorem drop_append_self (l t : List Char) : (l ++ t).drop l.length = t := by
  simp [drop_append_len l t 0]

theorem startsWith_drop_lt {m0 : Char} {mtl s : List Char} {n : Nat}
    (h : startsWith (m0 :: mtl) (s.drop n) = true) : n < s.length := by
  obtain ⟨t, ht⟩ := (startsWith_iff _ _).1 h
  by_contra hn
  push_neg at hn
  rw [List.drop_eq_nil_of_le hn] at ht
  exact absurd ht (by simp)

theorem mem_of_mem_dropWhile {x : Char} {p : Char → Bool} :
    ∀ {l : List Char}, x ∈ List.dropWhile p l → x ∈ l := by
  intro l
  induction l with
  | nil => simp [List.dropWhile]
  | cons a l ih =>
    simp only [List.dropWhile]
    split
    · intro h
      exact List.mem_cons_of_mem a (ih h)
    · exact fun h => h

theorem mem_of_mem_rstrip {x : Char} {l : List Char} (h : x ∈ rstrip l) : x ∈ l := by
  unfold rstrip at h
  rw [List.mem_reverse] at h
  exact List.mem_reverse.1 (mem_of_mem_dropWhile h)

theorem replaceAllAux_nil_pat :
    ∀ (fuel : Nat) (s : List Char), s.length < fuel → replaceAllAux fuel s [] = s := by
  intro fuel
  induction fuel with
  | zero => intro s h; omega
  | succ f ih =>
    intro s h
    simp only [replaceAllAux]
    rw [if_neg (by simp)]
    cases s with
    | nil => rfl
    | cons c rest =>
      have hr : rest.length < f := by simp at h; omega
      simp [ih rest hr]

theorem replaceAllAux_no_occ :
    ∀ (fuel : Nat) (s m : List Char), s.length < fuel → m ≠ [] →
      (∀ p, startsWith m (s.drop p) = false) → replaceAllAux fuel s m = s := by
  intro fuel
  induction fuel with
  | zero => intro s m h; omega
  | succ f ih =>
    intro s m h hm hno
    have h0 : startsWith m s = false := by simpa using hno 0
    simp only [replaceAllAux]
    rw [if_neg (by simp [h0])]
    cases s with
    | nil => rfl
    | cons c rest =>
      have hr : rest.length < f := by simp at h; omega
      have := ih rest m hr hm (fun p => by simpa using hno (p + 1))
      simp [this]

theorem replaceAllAux_single :
    ∀ (a : List Char) (fuel : Nat) (m b : List Char),
      (a ++ (m ++ b)).length < fuel → m ≠ [] →
      (∀ p, startsWith m ((a ++ (m ++ b)).drop p) = true → p = a.length) →
      replaceAllAux fuel (a ++ (m ++ b)) m = a ++ b := by
  intro a
  induction a with
  | nil =>
    intro fuel m b hlen hm huniq
    cases fuel with
    | zero => simp at hlen
    | succ f =>
      simp only [List.nil_append] at hlen huniq ⊢
      have hmlen : 0 < m.length := List.length_pos.2 hm
      simp only [replaceAllAux]
      rw [if_pos ⟨startsWith_append_self m b, hm⟩]
      rw [drop_append_self m b]
      apply replaceAllAux_no_occ f b m (by simp [List.length_append] at hlen; omega) hm
      intro p
      cases hsw : startsWith m (b.drop p) with
      | false => rfl
      | true =>
        exfalso
        have h9 := huniq (m.length + p) (by rw [drop_append_len]; exact hsw)
        simp only [List.length_nil] at h9
        omega
  | cons c a' ih =>
    intro fuel m b hlen hm huniq
    cases fuel with
    | zero => simp at hlen
    | succ f =>
      simp only [List.cons_append] at hlen huniq ⊢
      have hnot : ¬ (startsWith m (c :: (a' ++ (m ++ b))) = true ∧ m ≠ []) := by
        rintro ⟨hsw, -⟩
        have := huniq 0 (by simpa using hsw)
        simp at this
      simp only [replaceAllAux]
      rw [if_neg hnot]
      have hr : (a' ++ (m ++ b)).length < f := by simp at hlen ⊢; omega
      have htail := ih f m b hr hm (fun p hp => by
        have := huniq (p + 1) (by simpa using hp)
        simpa using this)
      simp [htail]

def headHash : List Char → Bool
  | [] => false
  | c :: _ => c = '#'

theorem replaceAllAux_no_hash :
    ∀ (fuel : Nat) (s tl : List Char), s.length < fuel → '#' ∉ tl →
      (∀ p, p ≤ s.length → headHash (s.drop p) = true →
        startsWith ('#' :: tl) (s.drop p) = true) →
      '#' ∉ replaceAllAux fuel s ('#' :: tl) := by
  intro fuel
  induction fuel with
  | zero => intro s tl h; omega
  | succ f ih =>
    intro s tl hlen htl hstart
    simp only [replaceAllAux]
    by_cases hsw : startsWith ('#' :: tl) s = true
    · rw [if_pos ⟨hsw, by simp⟩]
      obtain ⟨t, rfl⟩ := (startsWith_iff _ _).1 hsw
      rw [drop_append_self ('#' :: tl) t]
      apply ih t tl (by simp [List.length_append] at hlen ⊢; omega) htl
      intro p hp hh
      have h1 : (('#' :: tl) ++ t).drop (('#' :: tl).length + p) = t.drop p :=
        drop_append_len _ _ _
      have h2 := hstart (('#' :: tl).length + p)
        (by simp [List.length_append] at hp ⊢; omega) (by rw [h1]; exact hh)
      rw [h1] at h2
      exact h2
    · rw [if_neg (by rintro ⟨h1, -⟩; exact hsw h1)]
      cases s with
      | nil => simp
      | cons c rest =>
        have hc : (c = '#') = False := by
          by_contra hcc
          simp only [eq_iff_iff, iff_false] at hcc
          push_neg at hcc
          have hh : headHash ((c :: rest).drop 0) = true := by
            simp [headHash, hcc]
          exact hsw (by simpa using hstart 0 (by simp) hh)
        have hr : rest.length < f := by simp at hlen; omega
        have htail := ih rest tl hr htl (fun p hp hh => by
          have := hstart (p + 1) (by simp; omega) (by simpa using hh)
          simpa using this)
        intro hmem
        rcases List.mem_cons.1 hmem with h | h
        · rw [h.symm] at hc
          simp at hc
        · exact htail h

theorem matchAt_shape {s m : List Char} (h : matchAt s = some m) :
    ∃ tl, m = '#' :: tl ∧ tl ≠ [] ∧ tl.all isHexDigit = true := by
  cases s with
  | nil => simp [matchAt] at h
  | cons c rest =>
    simp only [matchAt] at h
    split_ifs at h with h1 h2 h3
    · refine ⟨rest.take 6, ?_, ?_, h2.2.1⟩
      · rw [h1] at h
        exact (Option.some.inj h).symm
      · intro hnil
        rw [hnil] at h2
        simp at h2
    · refine ⟨rest.take 3, ?_, ?_, h3.2.1⟩
      · rw [h1] at h
        exact (Option.some.inj h).symm
      · intro hnil
        rw [hnil] at h3
        simp at h3

theorem search_shape :
    ∀ {s m : List Char}, search s = some m →
      ∃ tl, m = '#' :: tl ∧ tl ≠ [] ∧ tl.all isHexDigit = true := by
  intro s
  induction s with
  | nil => intro m h; simp [search] at h
  | cons c rest ih =>
    intro m h
    simp only [search] at h
    cases hma : matchAt (c :: rest) with
    | some m' =>
      rw [hma] at h
      exact (Option.some.inj h) ▸ matchAt_shape hma
    | none =>
      rw [hma] at h
      exact ih h

/-- `occursB` is false whenever the pattern needs a `'#'` and the text has
none. -/
theorem occursB_eq_false_of_no_hash (tl l : List Char) (h : '#' ∉ l) :
    occursB ('#' :: tl) l = false := by
  unfold occursB
  cases hb : (List.range (l.length + 1)).any (fun p => startsWith ('#' :: tl) (l.drop p)) with
  | false => rfl
  | true =>
    exfalso
    obtain ⟨p, hp, hsw⟩ := List.any_eq_true.1 hb
    obtain ⟨t, ht⟩ := (startsWith_iff _ _).1 hsw
    have h8 : '#' ∈ l.drop p := by rw [ht]; simp
    exact h (List.drop_subset _ _ h8)

/-! ## Shared concrete inputs for witnesses and counterexamples -/

/-- A minimal concrete snapshot, used only to instantiate report-level
theorems (its content never influences the extraction/removal logic). -/
def snapA : Snapshot where
  location :=
    { name := Json.str "Evanston", state := Json.str "IL", latitude := 0, longitude := 0 }
  current_conditions :=
    { timestamp := Json.str "T"
      temperature_f := none
      temperature_c := Json.null
      humidity := Json.null
      wind_speed_mph := none
      wind_direction := Json.null
      description := Json.str "Sunny" }
  forecast := Json.arr []

/-- A concrete clock reading. -/
def tmA : Tm := ⟨2026, 10, 12, 9, 0, 0⟩

/-! ## C5 — unit conversions -/

/-- C5: the two unit converters are pure and total (they are plain Lean
functions of `Option ℚ`, so no exception is possible): on a defined Celsius
value `c` the result is `c * 9 / 5 + 32`, on a defined wind speed `v` it is
`v * 2.237`, and `None` propagates to `None` in both. -/
theorem unit_conversions_spec :
    (∀ c : ℚ, celsius_to_fahrenheit (some c) = some (c * 9 / 5 + 32)) ∧
    celsius_to_fahrenheit none = none ∧
    (∀ v : ℚ, ms_to_mph (some v) = some (v * 2.237)) ∧
    ms_to_mph none = none :=
  ⟨fun _ => rfl, rfl, fun _ => rfl, rfl⟩

/-! ## C1 — single-match extraction and removal -/

/-- C1 counterexample: on `"#abc #abcd"` the pattern matches exactly once
(only at position 0, yielding `"#abc"`; `"#abcd"` is not a match since four
hex digits satisfy neither arm of the pattern), yet the returned prose is
NOT the text with that single matched substring removed: `str.replace` also
deletes the non-matching plain occurrence of `"#abc"` inside `"#abcd"`,
leaving `" d"` instead of `" #abcd"`. -/
theorem generate_report_unique_match_cex :
    patternMatchCount "#abc #abcd".toList = 1 ∧
    matchAt "#abc #abcd".toList = some "#abc".toList ∧
    (generate_report snapA "#abc #abcd".toList tmA tmA).color_code = some "#abc".toList ∧
    (generate_report snapA "#abc #abcd".toList tmA tmA).weather_report ≠
      rstrip ("#abc #abcd".toList.take 0 ++
        "#abc #abcd".toList.drop (0 + "#abc".toList.length)) :=
  ⟨by decide, by decide, by decide, by decide⟩

/-- C1 (amended): if the response text contains the matched color code
exactly once as a plain substring (`text = a ++ m ++ b` with that occurrence
unique), then `color_code` is exactly that match and the prose is the text
with that occurrence removed and trailing whitespace trimmed; if nothing
matches, `color_code` is `none` and the prose is the trimmed original. -/
theorem generate_report_unique_occurrence (wd : Snapshot) (t1 t2 : Tm) :
    (∀ text a b m, extract_color_code text = some m →
      text = a ++ (m ++ b) →
      (∀ p, p ≤ text.length → startsWith m (text.drop p) = true → p = a.length) →
      (generate_report wd text t1 t2).color_code = some m ∧
      (generate_report wd text t1 t2).weather_report = rstrip (a ++ b)) ∧
    (∀ text, extract_color_code text = none →
      (generate_report wd text t1 t2).color_code = none ∧
      (generate_report wd text t1 t2).weather_report = rstrip text) := by
  constructor
  · intro text a b m hm htext huniq
    subst htext
    obtain ⟨tl, hmtl, -, -⟩ := search_shape hm
    have hmne : m ≠ [] := by rw [hmtl]; simp
    refine ⟨by simp [generate_report, hm], ?_⟩
    have huniq' : ∀ p, startsWith m ((a ++ (m ++ b)).drop p) = true → p = a.length := by
      intro p hp
      refine huniq p (Nat.le_of_lt ?_) hp
      cases m with
      | nil => exact absurd rfl hmne
      | cons m0 mtl => exact startsWith_drop_lt hp
    simp only [generate_report, hm, Option.getD_some]
    unfold replaceAll
    rw [replaceAllAux_single a ((a ++ (m ++ b)).length + 1) m b (Nat.lt_succ_self _)
      hmne huniq']
  · intro text hnone
    refine ⟨by simp [generate_report, hnone], ?_⟩
    simp only [generate_report, hnone, Option.getD_none]
    unfold replaceAll
    rw [replaceAllAux_nil_pat _ text (Nat.lt_succ_self _)]

/-- C1 witness, the spec's own end-to-end scenario B: response
`"It will be a pleasant day. #3a7bd5"` yields color code `"#3a7bd5"` and
prose `"It will be a pleasant day."`. -/
theorem generate_report_unique_occurrence_witness :
    ((generate_report snapA "It will be a pleasant day. #3a7bd5".toList tmA tmA).color_code
        = some "#3a7bd5".toList ∧
      (generate_report snapA "It will be a pleasant day. #3a7bd5".toList tmA tmA).weather_report
        = rstrip ("It will be a pleasant day. ".toList ++ [])) ∧
    rstrip ("It will be a pleasant day. ".toList ++ []) = "It will be a pleasant day.".toList :=
  ⟨(generate_report_unique_occurrence snapA tmA tmA).1
      "It will be a pleasant day. #3a7bd5".toList
      "It will be a pleasant day. ".toList [] "#3a7bd5".toList
      (by decide) (by decide) (by decide),
    by decide⟩

/-! ## C2 — which occurrences are removed -/

/-- C2 counterexample: on `"x #abc y #abc"` the matched code is `"#abc"`,
and the second occurrence is NOT left in place: Python's `str.replace`
removes every occurrence, so the prose is `"x  y"`, not `"x  y #abc"`. -/
theorem generate_report_first_only_cex :
    (generate_report snapA "x #abc y #abc".toList tmA tmA).color_code = some "#abc".toList ∧
    (generate_report snapA "x #abc y #abc".toList tmA tmA).weather_report ≠
      rstrip ("x ".toList ++ " y #abc".toList) ∧
    occursB "#abc".toList
      (generate_report snapA "x #abc y #abc".toList tmA tmA).weather_report = false :=
  ⟨by decide, by decide, by decide⟩

/-- C2 (amended): when the pattern matches, the prose is the response text
with EVERY left-to-right non-overlapping occurrence of the matched color
code removed (Python `str.replace` semantics), then trailing whitespace
trimmed — not just the first occurrence. -/
theorem generate_report_removes_all_occurrences (wd : Snapshot) (t1 t2 : Tm)
    (text m : List Char) (hm : extract_color_code text = some m) :
    (generate_report wd text t1 t2).color_code = some m ∧
    (generate_report wd text t1 t2).weather_report = rstrip (replaceAll text m) := by
  constructor <;> simp [generate_report, hm]

/-- C2 witness: on `"x #abc y #abc"` both occurrences go, leaving `"x  y"`. -/
theorem generate_report_removes_all_occurrences_witness :
    ((generate_report snapA "x #abc y #abc".toList tmA tmA).color_code = some "#abc".toList ∧
      (generate_report snapA "x #abc y #abc".toList tmA tmA).weather_report
        = rstrip (replaceAll "x #abc y #abc".toList "#abc".toList)) ∧
    rstrip (replaceAll "x #abc y #abc".toList "#abc".toList) = "x  y".toList :=
  ⟨generate_report_removes_all_occurrences snapA tmA tmA
      "x #abc y #abc".toList "#abc".toList (by decide),
    by decide⟩

/-! ## C9 — does any occurrence of the color code survive? -/

/-- C9 counterexample: on `"#abc #a#abcbc"` the color code is `"#abc"`, and
the returned prose `" #abc"` STILL contains it: removing the two plain
occurrences splices the fragments `"#a"` and `"bc"` into a fresh occurrence.
So a non-null color code can survive in the weather report. -/
theorem generate_report_color_survives_cex :
    (generate_report snapA "#abc #a#abcbc".toList tmA tmA).color_code = some "#abc".toList ∧
    occursB "#abc".toList
      (generate_report snapA "#abc #a#abcbc".toList tmA tmA).weather_report = true :=
  ⟨by decide, by decide⟩

/-- C9 (amended): if the color code is non-null and every `'#'` in the
response text begins an occurrence of that code (so removal cannot splice a
new occurrence out of fragments), then the returned prose contains no
occurrence of the color code at all. -/
theorem generate_report_color_gone (wd : Snapshot) (t1 t2 : Tm) (text m : List Char)
    (hm : extract_color_code text = some m)
    (hhash : ∀ p, p ≤ text.length → headHash (text.drop p) = true →
      startsWith m (text.drop p) = true) :
    occursB m (generate_report wd text t1 t2).weather_report = false := by
  obtain ⟨tl, rfl, -, hhex⟩ := search_shape hm
  have hnotin : '#' ∉ tl := by
    intro hmem
    rw [List.all_eq_true] at hhex
    have h7 := hhex '#' hmem
    have h8 : isHexDigit '#' = false := by decide
    rw [h8] at h7
    exact Bool.noConfusion h7
  have hwr : (generate_report wd text t1 t2).weather_report
      = rstrip (replaceAll text ('#' :: tl)) := by
    simp [generate_report, hm]
  rw [hwr]
  apply occursB_eq_false_of_no_hash
  intro hmem
  have h9 : '#' ∉ replaceAll text ('#' :: tl) := by
    unfold replaceAll
    exact replaceAllAux_no_hash (text.length + 1) text tl (Nat.lt_succ_self _) hnotin hhash
  exact h9 (mem_of_mem_rstrip hmem)

/-- C9 witness: in `"Nice day. #3a7bd5 bye"` the only `'#'` starts the
matched code, so no occurrence survives in the prose. -/
theorem generate_report_color_gone_witness :
    occursB "#3a7bd5".toList
      (generate_report snapA "Nice day. #3a7bd5 bye".toList tmA tmA).weather_report = false :=
  generate_report_color_gone snapA tmA tmA "Nice day. #3a7bd5 bye".toList
    "#3a7bd5".toList (by decide) (by decide)

/-! ## C6 — the report timestamp -/

/-- C6 counterexample: the timestamp written into the report at a concrete
clock reading is `"2024-01-01 12:00:00"`, a string made only of digits,
dashes, colons and a space — it contains no timezone name, abbreviation or
UTC offset, so it does not identify the timezone (the strftime format in the
source has no `%Z`/`%z` directive). -/
theorem report_timestamp_not_tz_qualified_cex :
    (generate_report snapA "ok".toList tmA ⟨2024, 1, 1, 12, 0, 0⟩).timestamp
      = "2024-01-01 12:00:00".toList ∧
    ((generate_report snapA "ok".toList tmA ⟨2024, 1, 1, 12, 0, 0⟩).timestamp).all
      (fun c => c.isDigit || c = '-' || c = ':' || c = ' ') = true :=
  ⟨by decide, by decide⟩

/-- C6 (amended): the report's timestamp is the second clock reading of the
run — the one the source takes while assembling the result dict, after the
model call returns (the first reading, taken when composing the prompt, does
not appear in the timestamp) — formatted as `%Y-%m-%d %H:%M:%S`, which
carries no timezone designator. -/
theorem report_timestamp_from_second_clock (wd : Snapshot) (text : List Char)
    (t1 t2 : Tm) :
    (generate_report wd text t1 t2).timestamp = formatTs t2 :=
  rfl

/-! ## C3 — get_weather_data is all-or-nothing -/

/-- `asStr` succeeds only on strings. -/
theorem asStr_eq_some {j : Json} {s : String} (h : asStr j = some s) : j = Json.str s := by
  cases j <;> simp [asStr] at h
  rw [h]

/-- C3: `get_weather_data` never lets a failure escape and never returns a
partial snapshot.  Exceptions are modelled as `none` results, and the
function is a total Lean function, so "no exception escapes" holds by
construction; the conjuncts state that (1) a failed points lookup gives
`none`, (2) a points body missing `properties.forecast` gives `none`, and
(3) any non-`none` result can only arise from the complete successful chain
of all four fetches and all field navigations, with the snapshot assembled
from exactly those responses — so every non-absent result carries all three
parts (location, current conditions, and truncated forecast) at once. -/
theorem get_weather_data_all_or_nothing (http : Request → Option Json) (lat lon : ℚ) :
    (http (Request.points lat lon) = none → get_weather_data http lat lon = none) ∧
    (∀ pd, http (Request.points lat lon) = some pd →
      (getField pd "properties").bind (fun p => getField p "forecast") = none →
      get_weather_data http lat lon = none) ∧
    (∀ snap, get_weather_data http lat lon = some snap →
      ∃ pd fUrl fd sUrl stations sid od periodsJ,
        http (Request.points lat lon) = some pd ∧
        (getField pd "properties").bind (fun p => getField p "forecast")
          = some (Json.str fUrl) ∧
        http (Request.geturl fUrl) = some fd ∧
        (getField pd "properties").bind (fun p => getField p "observationStations")
          = some (Json.str sUrl) ∧
        http (Request.geturl sUrl) = some stations ∧
        ((getField stations "features").bind index0).bind (fun f => getField f "id")
          = some sid ∧
        http (Request.geturl (pyStr sid ++ "/observations/latest")) = some od ∧
        format_location pd lat lon = some snap.location ∧
        format_current_conditions od = some snap.current_conditions ∧
        (getField fd "properties").bind (fun p => getField p "periods") = some periodsJ ∧
        slice2 periodsJ = some snap.forecast) := by
  refine ⟨?_, ?_, ?_⟩
  · intro h
    unfold get_weather_data
    simp [h]
  · intro pd h1 h2
    unfold get_weather_data
    simp [h1, h2]
  · intro snap h
    unfold get_weather_data at h
    cases e1 : http (Request.points lat lon) with
    | none => simp [e1] at h
    | some pd =>
    simp only [e1] at h
    cases e2 : (getField pd "properties").bind (fun p => getField p "forecast") with
    | none => simp [e2] at h
    | some fUrlJ =>
    simp only [e2] at h
    cases e3 : asStr fUrlJ with
    | none => simp [e3] at h
    | some fUrl =>
    simp only [e3] at h
    cases e4 : http (Request.geturl fUrl) with
    | none => simp [e4] at h
    | some fd =>
    simp only [e4] at h
    cases e5 : (getField pd "properties").bind (fun p => getField p "observationStations") with
    | none => simp [e5] at h
    | some sUrlJ =>
    simp only [e5] at h
    cases e6 : asStr sUrlJ with
    | none => simp [e6] at h
    | some sUrl =>
    simp only [e6] at h
    cases e7 : http (Request.geturl sUrl) with
    | none => simp [e7] at h
    | some stations =>
    simp only [e7] at h
    cases e8 : ((getField stations "features").bind index0).bind (fun f => getField f "id") with
    | none => simp [e8] at h
    | some sid =>
    simp only [e8] at h
    cases e9 : http (Request.geturl (pyStr sid ++ "/observations/latest")) with
    | none => simp [e9] at h
    | some od =>
    simp only [e9] at h
    cases e10 : format_location pd lat lon with
    | none => simp [e10] at h
    | some loc =>
    simp only [e10] at h
    cases e11 : format_current_conditions od with
    | none => simp [e11] at h
    | some cc =>
    simp only [e11] at h
    cases e12 : (getField fd "properties").bind (fun p => getField p "periods") with
    | none => simp [e12] at h
    | some periodsJ =>
    simp only [e12] at h
    cases e13 : slice2 periodsJ with
    | none => simp [e13] at h
    | some fc =>
    simp only [e13, Option.some.injEq] at h
    have h2' := e2
    rw [asStr_eq_some e3] at h2'
    have h5' := e5
    rw [asStr_eq_some e6] at h5'
    refine ⟨pd, fUrl, fd, sUrl, stations, sid, od, periodsJ,
      rfl, h2', e4, h5', e7, e8, e9, ?_, ?_, e12, ?_⟩
    · rw [← h]
      exact e10
    · rw [← h]
      exact e11
    · rw [← h]
      exact e13

/-- C3 witness: with every HTTP call failing, the result is absent. -/
theorem get_weather_data_all_or_nothing_witness :
    get_weather_data (fun _ => none) 0 0 = none :=
  (get_weather_data_all_or_nothing (fun _ => none) 0 0).1 rfl

/-! ## C4 — forecast truncation to the first two periods -/

/-- C4: whenever the upstream forecast response carries a periods list with
at least two entries and the call succeeds, the snapshot's forecast is
exactly the first two periods, unchanged and in their original order. -/
theorem forecast_first_two_periods (http : Request → Option Json) (lat lon : ℚ)
    (snap : Snapshot) (pd fd : Json) (fUrl : String) (ps : List Json)
    (h1 : http (Request.points lat lon) = some pd)
    (h2 : (getField pd "properties").bind (fun p => getField p "forecast")
      = some (Json.str fUrl))
    (h3 : http (Request.geturl fUrl) = some fd)
    (h4 : (getField fd "properties").bind (fun p => getField p "periods")
      = some (Json.arr ps))
    (h5 : 2 ≤ ps.length)
    (h6 : get_weather_data http lat lon = some snap) :
    ∃ p0 p1 rest, ps = p0 :: p1 :: rest ∧ snap.forecast = Json.arr [p0, p1] := by
  obtain ⟨p0, p1, rest, rfl⟩ : ∃ p0 p1 rest, ps = p0 :: p1 :: rest := by
    match ps, h5 with
    | p0 :: p1 :: rest, _ => exact ⟨p0, p1, rest, rfl⟩
  refine ⟨p0, p1, rest, rfl, ?_⟩
  unfold get_weather_data at h6
  simp only [h1, h2, show asStr (Json.str fUrl) = some fUrl from rfl, h3] at h6
  cases e5 : (getField pd "properties").bind (fun p => getField p "observationStations") with
  | none => simp [e5] at h6
  | some sUrlJ =>
  simp only [e5] at h6
  cases e6 : asStr sUrlJ with
  | none => simp [e6] at h6
  | some sUrl =>
  simp only [e6] at h6
  cases e7 : http (Request.geturl sUrl) with
  | none => simp [e7] at h6
  | some stations =>
  simp only [e7] at h6
  cases e8 : ((getField stations "features").bind index0).bind (fun f => getField f "id") with
  | none => simp [e8] at h6
  | some sid =>
  simp only [e8] at h6
  cases e9 : http (Request.geturl (pyStr sid ++ "/observations/latest")) with
  | none => simp [e9] at h6
  | some od =>
  simp only [e9] at h6
  cases e10 : format_location pd lat lon with
  | none => simp [e10] at h6
  | some loc =>
  simp only [e10] at h6
  cases e11 : format_current_conditions od with
  | none => simp [e11] at h6
  | some cc =>
  simp only [e11, h4, slice2, Option.some.injEq] at h6
  rw [← h6]
  exact rfl

/-! Concrete successful weather responses for the witnesses. -/

def pdW : Json :=
  Json.obj [("properties", Json.obj
    [("forecast", Json.str "F"), ("observationStations", Json.str "S"),
      ("relativeLocation", Json.obj [("properties", Json.obj
        [("city", Json.str "Evanston"), ("state", Json.str "IL")])])])]

def fdW : Json :=
  Json.obj [("properties", Json.obj
    [("periods", Json.arr [Json.num 1, Json.num 2, Json.num 3])])]

def stW : Json :=
  Json.obj [("features", Json.arr [Json.obj [("id", Json.str "ST")]])]

def odW : Json :=
  Json.obj [("properties", Json.obj
    [("timestamp", Json.str "2026-10-12T09:00:00Z"),
      ("temperature", Json.obj [("value", Json.null)]),
      ("relativeHumidity", Json.obj [("value", Json.null)]),
      ("windSpeed", Json.obj [("value", Json.null)]),
      ("windDirection", Json.obj [("value", Json.null)]),
      ("textDescription", Json.str "Sunny")])]

def httpW : Request → Option Json
  | Request.points _ _ => some pdW
  | Request.geturl u =>
    if u = "F" then some fdW
    else if u = "S" then some stW
    else if u = "ST/observations/latest" then some odW
    else none

/-- The snapshot `get_weather_data` assembles from `httpW`. -/
def snapW : Snapshot where
  location :=
    { name := Json.str "Evanston", state := Json.str "IL", latitude := 0, longitude := 0 }
  current_conditions :=
    { timestamp := Json.str "2026-10-12T09:00:00Z"
      temperature_f := none
      temperature_c := Json.null
      humidity := Json.null
      wind_speed_mph := none
      wind_direction := Json.null
      description := Json.str "Sunny" }
  forecast := Json.arr [Json.num 1, Json.num 2]

/-- C4 witness: a three-period upstream forecast is truncated to its first
two periods, in order. -/
theorem forecast_first_two_periods_witness :
    ∃ p0 p1 rest, ([Json.num 1, Json.num 2, Json.num 3] : List Json) = p0 :: p1 :: rest ∧
      snapW.forecast = Json.arr [p0, p1] :=
  forecast_first_two_periods httpW 0 0 snapW pdW fdW "F"
    [Json.num 1, Json.num 2, Json.num 3] rfl rfl rfl rfl (by decide) rfl

/-! ## C7 / C10 — thumbnail selection -/

/-- For a found, live video with a thumbnails map, `get_live_thumbnail`
reduces to the quality-priority loop over that map. -/
theorem get_live_thumbnail_reduces (response video thumbs : Json) (rest : List Json)
    (h1 : getField response "items" = some (Json.arr (video :: rest)))
    (h2 : hasKey video "liveStreamingDetails" = true)
    (h3 : (getField video "snippet").bind (fun s => getField s "thumbnails") = some thumbs) :
    get_live_thumbnail response = pickThumbnail thumbs ["maxres", "high", "default"] := by
  unfold get_live_thumbnail
  simp only [h1]
  rw [if_pos h2]
  simp only [h3]

/-- C7: on a successful lookup of a live video, the thumbnail URL is chosen
by the fixed priority order maxres → high → default: if the maxres thumbnail
(with its URL) is present it is returned; otherwise, if the high thumbnail
is present its URL is returned; otherwise, if the default thumbnail is
present its URL is returned. -/
theorem thumbnail_priority (response video thumbs : Json) (rest : List Json)
    (h1 : getField response "items" = some (Json.arr (video :: rest)))
    (h2 : hasKey video "liveStreamingDetails" = true)
    (h3 : (getField video "snippet").bind (fun s => getField s "thumbnails") = some thumbs) :
    (∀ u, thumbUrl thumbs "maxres" = some u → get_live_thumbnail response = some u) ∧
    (hasKey thumbs "maxres" = false →
      ∀ u, thumbUrl thumbs "high" = some u → get_live_thumbnail response = some u) ∧
    (hasKey thumbs "maxres" = false → hasKey thumbs "high" = false →
      ∀ u, thumbUrl thumbs "default" = some u → get_live_thumbnail response = some u) := by
  have hred := get_live_thumbnail_reduces response video thumbs rest h1 h2 h3
  have hkey : ∀ q u, thumbUrl thumbs q = some u → hasKey thumbs q = true := by
    intro q u hu
    unfold thumbUrl at hu
    unfold hasKey
    cases hg : getField thumbs q with
    | none => rw [hg] at hu; simp at hu
    | some e => rfl
  refine ⟨?_, ?_, ?_⟩
  · intro u hu
    rw [hred]
    simp only [pickThumbnail]
    rw [if_pos (hkey _ _ hu)]
    exact hu
  · intro hmax u hu
    rw [hred]
    simp only [pickThumbnail]
    rw [if_neg (by simp [hmax]), if_pos (hkey _ _ hu)]
    exact hu
  · intro hmax hhigh u hu
    rw [hred]
    simp only [pickThumbnail]
    rw [if_neg (by simp [hmax]), if_neg (by simp [hhigh]), if_pos (hkey _ _ hu)]
    exact hu

def thumbsW : Json :=
  Json.obj [("maxres", Json.obj [("url", Json.str "MAX")]),
    ("high", Json.obj [("url", Json.str "HIGH")])]

def videoW : Json :=
  Json.obj [("liveStreamingDetails", Json.obj []),
    ("snippet", Json.obj [("thumbnails", thumbsW)])]

def respW : Json := Json.obj [("items", Json.arr [videoW])]

/-- C7 witness: with maxres and high both present, maxres wins. -/
theorem thumbnail_priority_witness : get_live_thumbnail respW = some (Json.str "MAX") :=
  (thumbnail_priority respW videoW thumbsW [] rfl rfl rfl).1 (Json.str "MAX") rfl

/-- C10: if the video is found and live but its thumbnails map has none of
the keys maxres/high/default, the loop falls through and the result is
`none` — the same absent outcome as a not-found or not-live video, with no
exception. -/
theorem thumbnail_no_known_quality (response video thumbs : Json) (rest : List Json)
    (h1 : getField response "items" = some (Json.arr (video :: rest)))
    (h2 : hasKey video "liveStreamingDetails" = true)
    (h3 : (getField video "snippet").bind (fun s => getField s "thumbnails") = some thumbs)
    (h4 : hasKey thumbs "maxres" = false)
    (h5 : hasKey thumbs "high" = false)
    (h6 : hasKey thumbs "default" = false) :
    get_live_thumbnail response = none := by
  rw [get_live_thumbnail_reduces response video thumbs rest h1 h2 h3]
  simp only [pickThumbnail]
  rw [if_neg (by simp [h4]), if_neg (by simp [h5]), if_neg (by simp [h6])]

def thumbsM : Json := Json.obj [("medium", Json.obj [("url", Json.str "MED")])]

def videoM : Json :=
  Json.obj [("liveStreamingDetails", Json.obj []),
    ("snippet", Json.obj [("thumbnails", thumbsM)])]

def respM : Json := Json.obj [("items", Json.arr [videoM])]

/-- C10 witness: a live video whose only thumbnail quality is "medium". -/
theorem thumbnail_no_known_quality_witness : get_live_thumbnail respM = none :=
  thumbnail_no_known_quality respM videoM thumbsM [] rfl rfl rfl rfl rfl rfl

/-! ## C8 — abort before any weather call -/

/-- C8: whenever the stream lookup returns a video lacking live-streaming
details, `get_live_thumbnail` is absent and the run aborts with an error
before the weather stage: the trace of reached stages never contains the
weather call, and the output file is never written. -/
theorem abort_before_weather (env : Env) (video : Json) (rest : List Json)
    (h1 : getField env.yt_response "items" = some (Json.arr (video :: rest)))
    (h2 : hasKey video "liveStreamingDetails" = false) :
    get_live_thumbnail env.yt_response = none ∧
    (∃ msg, (main env).1 = Except.error msg) ∧
    Event.weatherCall ∉ (main env).2 ∧
    Event.writeFile ∉ (main env).2 := by
  obtain ⟨key, yt, dl, whttp, mresp, tp, tr⟩ := env
  simp only at h1
  have hthumb : get_live_thumbnail yt = none := by
    unfold get_live_thumbnail
    simp only [h1]
    rw [if_neg (by simp [h2])]
  refine ⟨hthumb, ?_⟩
  unfold main
  cases key with
  | none =>
    dsimp only
    exact ⟨⟨_, rfl⟩, by decide, by decide⟩
  | some k =>
    dsimp only
    by_cases hk : k = ""
    · rw [if_pos hk]
      exact ⟨⟨_, rfl⟩, by decide, by decide⟩
    · rw [if_neg hk]
      rw [hthumb]
      dsimp only
      exact ⟨⟨_, rfl⟩, by decide, by decide⟩

def envW : Env where
  api_key := some "k"
  yt_response := Json.obj [("items", Json.arr [Json.obj [("snippet", Json.obj [])]])]
  download_result := some "captures/x.jpg"
  weather_http := fun _ => none
  model_response := "ok".toList
  t_prompt := tmA
  t_report := tmA

/-- C8 witness: a found video with no live-streaming details aborts the run
before the weather stage. -/
theorem abort_before_weather_witness :
    get_live_thumbnail envW.yt_response = none ∧
    (∃ msg, (main envW).1 = Except.error msg) ∧
    Event.weatherCall ∉ (main envW).2 ∧
    Event.writeFile ∉ (main envW).2 :=
  abort_before_weather envW (Json.obj [("snippet", Json.obj [])]) [] rfl rfl

end Foggybot
